import Mathlib

/-!
Shallow embedding of the Mini-CRM-Hub segment rule subsystem.

Backend (`backend/src/utils/segmentEvaluator.js`, reached through
`backend/src/routes/segments.js`): `evaluateSegmentRules`, `buildCondition`,
`buildNumericCondition`, `buildDateCondition`, `buildStringCondition`, plus the
segment create and preview route handlers.

Frontend (`frontend/src/app/dashboard/page.tsx` segments page and
`frontend/src/app/page.tsx` customers page): `getMatchedCustomers`,
`handleCreateSegment`, `handleMakePurchase`, `updateSegmentCustomerCount`.

JavaScript numbers are modelled as `Rat` (with `Option` capturing `NaN` /
`Invalid Date`); timestamps are `Int` milliseconds.  The JS builtins used by
the source (`parseFloat`, `parseInt`, `Number`, `String.prototype.split`,
`new Date`, loose `==`, relational `>`/`<`) are modelled below by total
functions that follow the ECMAScript behaviour on the value shapes the
repository feeds them.
-/

/-! ## Character/string helpers modelling the JS builtins -/

/-- Numeric value of a decimal digit character. -/
def digitVal (c : Char) : Nat := c.toNat - 48

/-- Fold a list of decimal digit characters into a natural number. -/
def natOfDigits (l : List Char) : Nat := l.foldl (fun a c => a * 10 + digitVal c) 0

/-- Split a character list at every occurrence of `sep`; models
`String.prototype.split` with a one-character separator (always returns at
least one piece). -/
def splitOnChar (sep : Char) : List Char → List (List Char)
  | [] => [[]]
  | c :: rest =>
    match splitOnChar sep rest with
    | [] => [[c]]
    | h :: t => if c = sep then [] :: h :: t else (c :: h) :: t

/-- JS `s.split(sep)` for a one-character separator. -/
def jsSplit (sep : Char) (s : String) : List String :=
  (splitOnChar sep s.toList).map (fun l => String.mk l)

/-- JS whitespace, as skipped by `trim`, `parseFloat`, `parseInt` and
`Number` (the common forms). -/
def isSpaceCh (c : Char) : Bool :=
  c = ' ' || c = '\t' || c = '\n' || c = '\r'

/-- Trim leading and trailing whitespace from a character list. -/
def trimChars (l : List Char) : List Char :=
  ((l.dropWhile isSpaceCh).reverse.dropWhile isSpaceCh).reverse

/-- JS `String.prototype.trim` (as used by `express-validator`'s `.trim()`). -/
def trimStr (s : String) : String := String.mk (trimChars s.toList)

/-- A JS number as produced by `parseFloat`: a finite value, one of the two
infinities, or `NaN`. -/
inductive JsNum where
  | nan
  | posInf
  | negInf
  | finite (q : Rat)
  deriving DecidableEq, Repr

/-- JS unary minus on a parsed number. -/
def jsNumNeg : JsNum → JsNum
  | .nan => .nan
  | .posInf => .negInf
  | .negInf => .posInf
  | .finite q => .finite (-q)

/-- IEEE `<` on JS numbers: any comparison with `NaN` is false; `-Infinity`
is below and `Infinity` above every finite value. -/
def jsNumLt : JsNum → JsNum → Bool
  | .nan, _ => false
  | _, .nan => false
  | .negInf, .negInf => false
  | .negInf, _ => true
  | _, .negInf => false
  | .posInf, _ => false
  | _, .posInf => true
  | .finite a, .finite b => decide (a < b)

/-- IEEE `≤` on JS numbers (false on `NaN`). -/
def jsNumLe : JsNum → JsNum → Bool
  | .nan, _ => false
  | _, .nan => false
  | .negInf, _ => true
  | _, .posInf => true
  | .finite a, .finite b => decide (a ≤ b)
  | _, _ => false

/-- IEEE `=` on JS numbers (false on `NaN`). -/
def jsNumEq : JsNum → JsNum → Bool
  | .finite a, .finite b => decide (a = b)
  | .posInf, .posInf => true
  | .negInf, .negInf => true
  | _, _ => false

/-- Optionally signed digit run of a JS exponent part; 0 when no digit
follows (JS stops parsing before an incomplete exponent part). -/
def parseSignedDigits (l : List Char) : Int :=
  match l with
  | '-' :: r =>
    let p := r.span Char.isDigit
    if p.1.isEmpty then 0 else -((natOfDigits p.1 : Int))
  | '+' :: r =>
    let p := r.span Char.isDigit
    if p.1.isEmpty then 0 else ((natOfDigits p.1 : Int))
  | l2 =>
    let p := l2.span Char.isDigit
    if p.1.isEmpty then 0 else ((natOfDigits p.1 : Int))

/-- Exponent part `e`/`E` `[sign] digits` of a JS number literal; 0 when the
marker is absent or incomplete. -/
def parseExponent : List Char → Int
  | 'e' :: r => parseSignedDigits r
  | 'E' :: r => parseSignedDigits r
  | _ => 0

/-- Apply a trailing exponent part to a parsed mantissa; the mantissa is
returned untouched when no exponent marker follows. -/
def withExponent (m : Rat) (rest : List Char) : Rat :=
  match rest with
  | 'e' :: _ => m * ((10 : Rat) ^ parseExponent rest)
  | 'E' :: _ => m * ((10 : Rat) ^ parseExponent rest)
  | _ => m

/-- Unsigned part of `parseFloat`: the literal `Infinity`, or a decimal
prefix `digits [. digits] [exponent]`; `NaN` when neither is present. -/
def parseFloatMag (l : List Char) : JsNum :=
  if (("Infinity").toList).isPrefixOf l then .posInf
  else
    let p := l.span Char.isDigit
    match p.2 with
    | '.' :: rest2 =>
      let q := rest2.span Char.isDigit
      if p.1.isEmpty && q.1.isEmpty then .nan
      else .finite (withExponent
        ((natOfDigits p.1 : Rat) + (natOfDigits q.1 : Rat) / ((10 : Rat) ^ q.1.length)) q.2)
    | rest =>
      if p.1.isEmpty then .nan
      else .finite (withExponent ((natOfDigits p.1 : Rat)) rest)

/-- JS `parseFloat` on a string: skip leading whitespace, optional sign, then
the longest `Infinity`-or-decimal prefix; `JsNum.nan` models `NaN`. -/
def parseFloatStr (s : String) : JsNum :=
  match s.toList.dropWhile isSpaceCh with
  | '-' :: r => jsNumNeg (parseFloatMag r)
  | '+' :: r => parseFloatMag r
  | l => parseFloatMag l

/-- JS `parseInt` on a string: skip leading whitespace, optional sign, longest
digit prefix; `none` models `NaN`. -/
def parseIntStr (s : String) : Option Int :=
  match s.toList.dropWhile isSpaceCh with
  | '-' :: r =>
    let p := r.span Char.isDigit
    if p.1.isEmpty then none else some (-(natOfDigits p.1 : Int))
  | '+' :: r =>
    let p := r.span Char.isDigit
    if p.1.isEmpty then none else some ((natOfDigits p.1 : Int))
  | l =>
    let p := l.span Char.isDigit
    if p.1.isEmpty then none else some ((natOfDigits p.1 : Int))

/-- Truncation toward zero, as JS number-to-integer conversions do. -/
def ratTrunc (q : Rat) : Int := if q < 0 then -((-q).floor) else q.floor

/-- JS `Number(string)`: trimmed empty string is `0`; otherwise the whole
string must be `[sign] digits [. digits]`; `none` models `NaN`. -/
def jsNumberStr (s : String) : Option Rat :=
  match trimChars s.toList with
  | [] => some 0
  | '-' :: r => (jsNumberCore r).map (fun q => -q)
  | '+' :: r => jsNumberCore r
  | l => jsNumberCore l
where
  /-- Full-string unsigned decimal parse (`none` = `NaN`). -/
  jsNumberCore (l : List Char) : Option Rat :=
    let p := l.span Char.isDigit
    match p.2 with
    | [] => if p.1.isEmpty then none else some (natOfDigits p.1 : Nat)
    | '.' :: rest2 =>
      let q := rest2.span Char.isDigit
      if q.2.isEmpty && !(p.1.isEmpty && q.1.isEmpty) then
        some ((natOfDigits p.1 : Rat) + (natOfDigits q.1 : Rat) / ((10 : Rat) ^ q.1.length))
      else none
    | _ => none

/-! ## Backend data model

Only the customer columns the evaluator reads are modelled (Prisma's
`select { id }` projection is the `id` field). -/

/-- A row of the Prisma `customer` table as seen by the evaluator. -/
structure Customer where
  id : String
  email : String
  totalSpend : Rat
  visitCount : Int
  /-- `lastVisit` as milliseconds since the epoch. -/
  lastVisit : Int
  deriving DecidableEq, Repr

/-- A JSON leaf value of a rule condition (`value` is a string or a number). -/
inductive Value where
  | str (s : String)
  | num (q : Rat)
  deriving DecidableEq, Repr

/-- One rule condition `{field, operator, value}`. -/
structure Condition where
  field : String
  operator : String
  value : Value
  deriving DecidableEq, Repr

/-- A rule tree as the backend receives it: either `{type, conditions}` whose
children are leaf conditions (the source maps `buildCondition` directly over
`rules.conditions`, so children are never subtrees), or a bare condition. -/
inductive Rules where
  | node (type : String) (conditions : List Condition)
  | leaf (cond : Condition)
  deriving DecidableEq, Repr

/-- JS `parseFloat(value)` for a condition value (numbers pass through). -/
def jsParseFloat : Value → JsNum
  | .num q => .finite q
  | .str s => parseFloatStr s

/-- JS `parseInt(value)` for a condition value (a number is stringified and
re-parsed, which truncates toward zero). -/
def jsParseIntV : Value → Option Int
  | .num q => some (ratTrunc q)
  | .str s => parseIntStr s

/-- The JS number a `parseInt` result contributes to a filter (`NaN` when the
parse failed). -/
def jsNumOfIntOpt : Option Int → JsNum
  | some n => .finite ((n : Rat))
  | none => .nan

/-- JS `new Date(value)` as a millisecond timestamp; `none` is `Invalid Date`.
Numbers are millisecond timestamps; date strings are modelled as their decimal
millisecond encoding (the repository's date grammar is opaque to the claims,
which only depend on the comparison semantics of parsed timestamps). -/
def jsDateOfStr (s : String) : Option Int :=
  match trimChars s.toList with
  | '-' :: r =>
    if !r.isEmpty && r.all Char.isDigit then some (-(natOfDigits r : Int)) else none
  | l => if !l.isEmpty && l.all Char.isDigit then some ((natOfDigits l : Int)) else none

/-- JS `new Date(value)` when `value` may be a string or a number. -/
def jsDate : Value → Option Int
  | .num q => some (ratTrunc q)
  | .str s => jsDateOfStr s

/-! ## Prisma where-clause filters produced by the builders -/

/-- A single Prisma field filter, as built by `buildNumericCondition`,
`buildDateCondition` and `buildStringCondition`.  Numeric bounds are `JsNum`
(possibly `NaN` or an infinity); date `Option` payloads carry `Invalid Date`;
for `between`, an outer `none` models a missing (`undefined`) bound left by
array destructuring. -/
inductive DbFilter where
  | numGt (v : JsNum)
  | numGte (v : JsNum)
  | numLt (v : JsNum)
  | numLte (v : JsNum)
  | numEq (v : JsNum)
  | dateLt (t : Option Int)
  | dateGt (t : Option Int)
  | dateBetween (lo hi : Option (Option Int))
  | strContains (v : Value)
  | strStarts (v : Value)
  | strEnds (v : Value)
  | strEquals (v : Value)
  deriving DecidableEq, Repr

/-- The object `{[field]: {...filter...}}` a builder returns. -/
structure CondClause where
  field : String
  filter : DbFilter
  deriving DecidableEq, Repr

/-- The top-level Prisma where clause `evaluateSegmentRules` assembles: an
`AND` list, an `OR` list, or a single condition clause. -/
inductive WhereClause where
  | andC (cs : List CondClause)
  | orC (cs : List CondClause)
  | singleC (c : CondClause)
  deriving DecidableEq, Repr

/-- Numeric column of a customer, by Prisma column name. -/
def fieldNum (c : Customer) (field : String) : Option Rat :=
  if field = ("totalSpend") then some c.totalSpend
  else if field = ("visitCount") then some ((c.visitCount : Rat))
  else none

/-- Date column of a customer, by Prisma column name. -/
def fieldDate (c : Customer) (field : String) : Option Int :=
  if field = ("lastVisit") then some c.lastVisit else none

/-- String column of a customer, by Prisma column name. -/
def fieldStr (c : Customer) (field : String) : Option String :=
  if field = ("email") then some c.email else none

/-- Boolean list-infix test used for the `contains` filter. -/
def isInfixB (needle hay : List Char) : Bool :=
  match hay with
  | [] => needle.isEmpty
  | _ :: t => needle.isPrefixOf hay || isInfixB needle t

/-- Prisma's evaluation of one field filter against a customer row.  Numeric
bounds compare by the IEEE order (`NaN` bounds hold for no row, infinite
bounds are below/above every stored value); comparisons against
`Invalid Date` hold for no row; an absent (`undefined`) `between` bound is
ignored, as Prisma ignores `undefined` filter entries. -/
def filterMatches (c : Customer) (field : String) : DbFilter → Bool
  | .numGt v =>
    match fieldNum c field with
    | some x => jsNumLt v (.finite x)
    | none => false
  | .numGte v =>
    match fieldNum c field with
    | some x => jsNumLe v (.finite x)
    | none => false
  | .numLt v =>
    match fieldNum c field with
    | some x => jsNumLt (.finite x) v
    | none => false
  | .numLte v =>
    match fieldNum c field with
    | some x => jsNumLe (.finite x) v
    | none => false
  | .numEq v =>
    match fieldNum c field with
    | some x => jsNumEq (.finite x) v
    | none => false
  | .dateLt t =>
    match fieldDate c field, t with
    | some x, some b => decide (x < b)
    | _, _ => false
  | .dateGt t =>
    match fieldDate c field, t with
    | some x, some b => decide (b < x)
    | _, _ => false
  | .dateBetween lo hi =>
    (match lo with
     | none => true
     | some none => false
     | some (some a) =>
       match fieldDate c field with
       | some x => decide (a ≤ x)
       | none => false) &&
    (match hi with
     | none => true
     | some none => false
     | some (some b) =>
       match fieldDate c field with
       | some x => decide (x ≤ b)
       | none => false)
  | .strContains v =>
    match fieldStr c field, v with
    | some e, .str s => isInfixB s.toList e.toList
    | _, _ => false
  | .strStarts v =>
    match fieldStr c field, v with
    | some e, .str s => s.toList.isPrefixOf e.toList
    | _, _ => false
  | .strEnds v =>
    match fieldStr c field, v with
    | some e, .str s => s.toList.reverse.isPrefixOf e.toList.reverse
    | _, _ => false
  | .strEquals v =>
    match fieldStr c field, v with
    | some e, .str s => decide (e = s)
    | _, _ => false

/-- Evaluation of one condition clause against a customer. -/
def condMatches (w : CondClause) (c : Customer) : Bool :=
  filterMatches c w.field w.filter

/-- Prisma's evaluation of the assembled where clause. -/
def whereMatches (w : WhereClause) (c : Customer) : Bool :=
  match w with
  | .andC ws => ws.all (fun cc => condMatches cc c)
  | .orC ws => ws.any (fun cc => condMatches cc c)
  | .singleC cc => condMatches cc c

/-! ## The backend builders (`segmentEvaluator.js`) -/

/-- `buildNumericCondition(field, operator, value)`; `value` is the already
coerced JS number (`none` = `NaN`).  The `switch` default throws. -/
def buildNumericCondition (field operator : String) (value : JsNum) :
    Except String CondClause :=
  if operator = ("gt") then .ok ⟨field, .numGt value⟩
  else if operator = ("gte") then .ok ⟨field, .numGte value⟩
  else if operator = ("lt") then .ok ⟨field, .numLt value⟩
  else if operator = ("lte") then .ok ⟨field, .numLte value⟩
  else if operator = ("eq") then .ok ⟨field, .numEq value⟩
  else .error (("Unsupported operator: ") ++ operator)

/-- `buildDateCondition(field, operator, value)`.  The source computes
`const now = new Date()` inside the builder; that clock reading is passed in
as `now` to keep the embedding pure.  `daysAgo` subtracts whole days
(`now.setDate(now.getDate() - N)`), modelled as `N * 86400000` ms.  For
`between` the source calls `value.split(',')`, which throws a `TypeError`
when `value` is a number. -/
def buildDateCondition (field operator : String) (value : Value) (now : Int) :
    Except String CondClause :=
  if operator = ("before") then .ok ⟨field, .dateLt (jsDate value)⟩
  else if operator = ("after") then .ok ⟨field, .dateGt (jsDate value)⟩
  else if operator = ("between") then
    match value with
    | .str s =>
      let parts := jsSplit (',') s
      .ok ⟨field, .dateBetween ((parts[0]?).map jsDateOfStr) ((parts[1]?).map jsDateOfStr)⟩
    | .num _ => .error (("TypeError: value.split is not a function"))
  else if operator = ("daysAgo") then
    .ok ⟨field, .dateLt ((jsParseIntV value).map (fun d => now - d * 86400000))⟩
  else .error (("Unsupported operator: ") ++ operator)

/-- `buildStringCondition(field, operator, value)`. -/
def buildStringCondition (field operator : String) (value : Value) :
    Except String CondClause :=
  if operator = ("contains") then .ok ⟨field, .strContains value⟩
  else if operator = ("startsWith") then .ok ⟨field, .strStarts value⟩
  else if operator = ("endsWith") then .ok ⟨field, .strEnds value⟩
  else if operator = ("equals") then .ok ⟨field, .strEquals value⟩
  else .error (("Unsupported operator: ") ++ operator)

/-- `buildCondition(condition)`: dispatch on `field`; the `switch` default
throws `Unsupported field`. -/
def buildCondition (cond : Condition) (now : Int) : Except String CondClause :=
  if cond.field = ("totalSpend") then
    buildNumericCondition (("totalSpend")) cond.operator (jsParseFloat cond.value)
  else if cond.field = ("visitCount") then
    buildNumericCondition (("visitCount")) cond.operator (jsNumOfIntOpt (jsParseIntV cond.value))
  else if cond.field = ("lastVisit") then
    buildDateCondition (("lastVisit")) cond.operator cond.value now
  else if cond.field = ("email") then
    buildStringCondition (("email")) cond.operator cond.value
  else .error (("Unsupported field: ") ++ cond.field)

/-- `rules.conditions.map(condition => buildCondition(condition))`: JS `map`
evaluates left to right and the first throw aborts the whole call. -/
def buildConditions (now : Int) : List Condition → Except String (List CondClause)
  | [] => .ok []
  | c :: cs =>
    match buildCondition c now, buildConditions now cs with
    | .ok w, .ok ws => .ok (w :: ws)
    | .error e, _ => .error e
    | .ok _, .error e => .error e

/-- The where clause assembled by `evaluateSegmentRules`: `AND`/`OR` wrap the
mapped child conditions; any other `{type, conditions}` object falls through
to `buildCondition(rules)`, whose `field` is `undefined`, so it throws
`Unsupported field: undefined`; a bare condition is built directly. -/
def buildWhereClause (rules : Rules) (now : Int) : Except String WhereClause :=
  match rules with
  | .node ty conds =>
    if ty = ("AND") then (buildConditions now conds).map WhereClause.andC
    else if ty = ("OR") then (buildConditions now conds).map WhereClause.orC
    else .error (("Unsupported field: undefined"))
  | .leaf c0 => (buildCondition c0 now).map WhereClause.singleC

/-- `evaluateSegmentRules(rules)`: build the where clause, then
`prisma.customer.findMany({where, select: {id}})` and return the ids.  The
customer table and the builder's clock reading are explicit parameters. -/
def evaluateSegmentRules (rules : Rules) (now : Int) (customers : List Customer) :
    Except String (List String) :=
  match buildWhereClause rules now with
  | .error e => .error e
  | .ok w => .ok ((customers.filter (fun c => whereMatches w c)).map Customer.id)

/-! ## Backend route handlers (`routes/segments.js`) -/

/-- A row of the Prisma `segment` table (fields touched by the routes). -/
structure BSegment where
  id : String
  name : String
  description : Option String
  rules : Rules
  deriving DecidableEq, Repr

/-- The backend store: the customer table, the segment table and the
`customerSegment` join table (rows are `(customerId, segmentId)`). -/
structure DB where
  customers : List Customer
  segments : List BSegment
  links : List (String × String)
  deriving DecidableEq, Repr

/-- Outcome of `POST /api/segments` as seen by the client. -/
inductive CreateResult where
  /-- 201 with the created segment and `customerCount`. -/
  | created (segment : BSegment) (customerCount : Nat)
  /-- 400 from `express-validator` (blank `name`). -/
  | badRequest
  /-- 500 from the `catch` block. -/
  | serverError
  deriving DecidableEq, Repr

/-- The `POST /api/segments` handler.  Validation only checks
`name.trim().notEmpty()` (`description` is optional, `rules` must be an
object, which the `Rules` type guarantees).  The segment row is created
first; then the rules are evaluated; a throw lands in the `catch` block with
the segment row already persisted.  On success, membership rows are inserted
afterwards in batches of 100 with `skipDuplicates` (the batching does not
change the final rows; ids of a table are distinct and the segment id is
fresh). -/
def createSegment (name : String) (description : Option String) (rules : Rules)
    (newId : String) (now : Int) (db : DB) : CreateResult × DB :=
  if trimStr name = ("") then (.badRequest, db)
  else
    let segment : BSegment := ⟨newId, name, description, rules⟩
    let db1 : DB := { db with segments := db.segments ++ [segment] }
    match evaluateSegmentRules rules now db1.customers with
    | .error _ => (.serverError, db1)
    | .ok matchingCustomers =>
      (.created segment matchingCustomers.length,
        { db1 with links := db1.links ++ matchingCustomers.map (fun cid => (cid, newId)) })

/-- The `POST /api/segments/preview` handler: evaluate and answer
`{customerCount, sampleCustomers: matchingCustomers.slice(0, 5)}`; it issues
no write, so the store is returned unchanged on both paths. -/
def previewSegment (rules : Rules) (now : Int) (db : DB) :
    (Except String (Nat × List String)) × DB :=
  match evaluateSegmentRules rules now db.customers with
  | .error e => (.error e, db)
  | .ok matchingCustomers =>
    (.ok (matchingCustomers.length, matchingCustomers.take 5), db)

/-! ## Frontend data model (`frontend/src/app`) -/

/-- A customer as stored by the customers page in `localStorage`. -/
structure FCustomer where
  id : String
  name : String
  email : String
  phone : String
  /-- `totalPurchases` starts at 0 and is only ever incremented by 1, so its
  value is always an integer; rule literals it is compared against are still
  parsed as general JS numbers. -/
  totalPurchases : Int
  deriving DecidableEq, Repr

/-- A segment as stored by the dashboard segments page in `localStorage`. -/
structure FSegment where
  id : String
  name : String
  description : String
  customerCount : Nat
  rules : List String
  matchedCustomerIds : List String
  deriving DecidableEq, Repr

/-- A JS value flowing through `getMatchedCustomers`: `customer[field]` is a
string, a number, or `undefined`. -/
inductive JSVal where
  | undefined
  | numJ (q : Rat)
  | strJ (s : String)
  deriving DecidableEq, Repr

/-- Dynamic field access `customer[field as keyof Customer]`. -/
def customerField (c : FCustomer) (field : String) : JSVal :=
  if field = ("id") then .strJ c.id
  else if field = ("name") then .strJ c.name
  else if field = ("email") then .strJ c.email
  else if field = ("phone") then .strJ c.phone
  else if field = ("totalPurchases") then .numJ ((c.totalPurchases : Rat))
  else .undefined

/-- JS `ToNumber` on the values above (`none` = `NaN`; `undefined` is `NaN`). -/
def toNumberJ : JSVal → Option Rat
  | .undefined => none
  | .numJ q => some q
  | .strJ s => jsNumberStr s

/-- JS `a > b`: two strings compare lexicographically; otherwise both sides go
through `ToNumber` and any `NaN` makes the comparison false. -/
def jsGt (a b : JSVal) : Bool :=
  match a, b with
  | .strJ x, .strJ y => decide (y < x)
  | _, _ =>
    match toNumberJ a, toNumberJ b with
    | some x, some y => decide (y < x)
    | _, _ => false

/-- JS `a < b` (same coercions as `jsGt`). -/
def jsLt (a b : JSVal) : Bool :=
  match a, b with
  | .strJ x, .strJ y => decide (x < y)
  | _, _ =>
    match toNumberJ a, toNumberJ b with
    | some x, some y => decide (x < y)
    | _, _ => false

/-- JS loose equality `a == b` on the values above: same-type comparison is
structural; string vs number goes through `ToNumber`; `undefined` equals only
`undefined` (and `null`). -/
def jsLooseEq (a b : JSVal) : Bool :=
  match a, b with
  | .undefined, .undefined => true
  | .numJ x, .numJ y => decide (x = y)
  | .strJ x, .strJ y => decide (x = y)
  | .numJ x, .strJ y =>
    match jsNumberStr y with
    | some q => decide (x = q)
    | none => false
  | .strJ x, .numJ y =>
    match jsNumberStr x with
    | some q => decide (q = y)
    | none => false
  | .undefined, _ => false
  | _, .undefined => false

/-- `const parsedValue = isNaN(Number(value)) ? value : Number(value)`. -/
def parsedValueOf (value : String) : JSVal :=
  match jsNumberStr value with
  | some q => .numJ q
  | none => .strJ value

/-- One rule string applied to one customer, from the body of
`getMatchedCustomers`: split on spaces, destructure `[field, operator,
value]` (missing pieces are `undefined`), index the customer dynamically,
coerce the literal, then switch on the operator (default: `false`). -/
def evalRule (c : FCustomer) (rule : String) : Bool :=
  let parts := jsSplit (' ') rule
  let fieldValue :=
    match parts[0]? with
    | some f => customerField c f
    | none => JSVal.undefined
  let parsedValue :=
    match parts[2]? with
    | some v => parsedValueOf v
    | none => JSVal.undefined
  match parts[1]? with
  | some op =>
    if op = (">") then jsGt fieldValue parsedValue
    else if op = ("<") then jsLt fieldValue parsedValue
    else if op = ("=") then jsLooseEq fieldValue parsedValue
    else if op = ("==") then jsLooseEq fieldValue parsedValue
    else if op = ("!=") then !jsLooseEq fieldValue parsedValue
    else false
  | none => false

/-- `getMatchedCustomers(rules)`: the customers for which every rule string
holds (the `customers` component state is an explicit parameter). -/
def getMatchedCustomers (rules : List String) (customers : List FCustomer) :
    List FCustomer :=
  customers.filter (fun customer => rules.all (fun rule => evalRule customer rule))

/-- `handleCreateSegment`: reject (alert, no state change, modelled as `none`)
when `name` or `description` is empty or no rule is defined; otherwise build
the new segment from the evaluation result and either replace the segment
with `editingId` or append a fresh segment with id `newId`
(`Date.now().toString()`). -/
def handleCreateSegment (name description : String) (rules : List String)
    (editingId : Option String) (newId : String)
    (customers : List FCustomer) (segments : List FSegment) :
    Option (List FSegment) :=
  if name = ("") || description = ("") || rules.length = 0 then none
  else
    let matched := getMatchedCustomers rules customers
    let newSegment : FSegment :=
      { id := editingId.getD newId
        name := name
        description := description
        customerCount := matched.length
        rules := rules
        matchedCustomerIds := matched.map (fun c => c.id) }
    some (match editingId with
      | some eid => segments.map (fun s => if s.id = eid then newSegment else s)
      | none => segments ++ [newSegment])

/-- `updateSegmentCustomerCount` (customers page): for every stored segment,
overwrite `customerCount` with the number of customers satisfying the
hardcoded rule `customer.totalPurchases > 1`; `matchedCustomerIds` and the
segment's own `rules` are not consulted or changed. -/
def updateSegmentCustomerCount (customers : List FCustomer)
    (segments : List FSegment) : List FSegment :=
  segments.map (fun segment =>
    { segment with
      customerCount :=
        (customers.filter (fun customer => decide (1 < customer.totalPurchases))).length })

/-- `handleMakePurchase(customerId)`: increment the customer's
`totalPurchases`, then call `updateSegmentCustomerCount`.  The recount runs
on the `customers` captured by the React closure, which still holds the
pre-purchase state (the `setCustomers` update has not been committed yet). -/
def handleMakePurchase (customerId : String) (customers : List FCustomer)
    (segments : List FSegment) : List FCustomer × List FSegment :=
  let updatedCustomers := customers.map (fun c =>
    if c.id = customerId then { c with totalPurchases := c.totalPurchases + 1 } else c)
  (updatedCustomers, updateSegmentCustomerCount customers segments)

/-! ## Concrete fixtures used by witnesses and counterexamples

The three backend customers are the fixture of spec section 8
(spends 1200/50/800, visits 3/1/5). -/

/-- Fixture customer 1. -/
def demoCust1 : Customer := ⟨("c1"), ("a@x.com"), 1200, 3, 1000⟩

/-- Fixture customer 2. -/
def demoCust2 : Customer := ⟨("c2"), ("b@x.com"), 50, 1, 2000⟩

/-- Fixture customer 3. -/
def demoCust3 : Customer := ⟨("c3"), ("c@x.com"), 800, 5, 3000⟩

/-- The backend customer fixture. -/
def demoCustomers : List Customer := [demoCust1, demoCust2, demoCust3]

/-- Backend store holding the three fixture customers and no segments. -/
def demoDB : DB := ⟨demoCustomers, [], []⟩

/-- Six further customers, all with nonnegative spend (so a `totalSpend gte 0`
rule matches more than five of them). -/
def demoCustomers6 : List Customer :=
  [⟨("d1"), ("1@x.com"), 10, 1, 0⟩, ⟨("d2"), ("2@x.com"), 20, 1, 0⟩,
   ⟨("d3"), ("3@x.com"), 30, 1, 0⟩, ⟨("d4"), ("4@x.com"), 40, 1, 0⟩,
   ⟨("d5"), ("5@x.com"), 50, 1, 0⟩, ⟨("d6"), ("6@x.com"), 60, 1, 0⟩]

/-- Backend store with six matching customers, for the preview witness. -/
def demoDB6 : DB := ⟨demoCustomers6, [], []⟩

/-- Fixture frontend customer with two purchases. -/
def demoFC : FCustomer := ⟨("1"), ("Bob"), ("b@x.com"), ("9"), 2⟩

/-- Fixture frontend segment whose own rule (`totalPurchases > 1000`) matches
no fixture customer. -/
def demoFSeg : FSegment := ⟨("s1"), ("Seg"), ("d"), 0, [("totalPurchases > 1000")], []⟩

/-! ## Helper lemmas -/

/-- Left-to-right reading of a `Forall₂` derivation. -/
theorem forall2_mem_l {α β : Type} {R : α → β → Prop} {l1 : List α} {l2 : List β}
    (h : List.Forall₂ R l1 l2) {a : α} (ha : a ∈ l1) : ∃ b, b ∈ l2 ∧ R a b := by
  induction h with
  | nil => cases ha
  | cons hr _ ih =>
    rcases List.mem_cons.1 ha with h1 | h1
    · subst h1; exact ⟨_, List.mem_cons_self .., hr⟩
    · obtain ⟨b, hb, hrb⟩ := ih h1
      exact ⟨b, List.mem_cons_of_mem _ hb, hrb⟩

/-- Right-to-left reading of a `Forall₂` derivation. -/
theorem forall2_mem_r {α β : Type} {R : α → β → Prop} {l1 : List α} {l2 : List β}
    (h : List.Forall₂ R l1 l2) {b : β} (hb : b ∈ l2) : ∃ a, a ∈ l1 ∧ R a b := by
  induction h with
  | nil => cases hb
  | cons hr _ ih =>
    rcases List.mem_cons.1 hb with h1 | h1
    · subst h1; exact ⟨_, List.mem_cons_self .., hr⟩
    · obtain ⟨a, ha, hra⟩ := ih h1
      exact ⟨a, List.mem_cons_of_mem _ ha, hra⟩

/-- A successful `buildConditions` run pairs every child condition with its
built clause. -/
theorem buildConditions_forall2 {now : Int} {cs : List Condition} {ws : List CondClause}
    (h : buildConditions now cs = .ok ws) :
    List.Forall₂ (fun cd w => buildCondition cd now = .ok w) cs ws := by
  induction cs generalizing ws with
  | nil =>
    simp only [buildConditions] at h
    cases h
    exact List.Forall₂.nil
  | cons c cs ih =>
    simp only [buildConditions] at h
    cases hb : buildCondition c now with
    | error e => rw [hb] at h; cases h
    | ok w =>
      rw [hb] at h
      cases hr : buildConditions now cs with
      | error e => rw [hr] at h; cases h
      | ok ws2 =>
        rw [hr] at h
        cases h
        exact List.Forall₂.cons hb (ih hr)

/-- If any child condition fails to build, the whole `buildConditions` run
fails (with the first failing condition's error). -/
theorem buildConditions_error {now : Int} {cs : List Condition} {cd : Condition}
    (hin : cd ∈ cs) {e0 : String} (hb : buildCondition cd now = .error e0) :
    ∃ e, buildConditions now cs = .error e := by
  induction cs with
  | nil => cases hin
  | cons c cs ih =>
    rcases List.mem_cons.1 hin with h1 | h1
    · subst h1
      exact ⟨e0, by simp only [buildConditions]; rw [hb]⟩
    · cases hc : buildCondition c now with
      | error e => exact ⟨e, by simp only [buildConditions]; rw [hc]⟩
      | ok w =>
        obtain ⟨e, he⟩ := ih h1
        exact ⟨e, by simp only [buildConditions]; rw [hc, he]⟩

/-- Membership in the id-projection of a filtered customer table, when the
table's ids are distinct. -/
theorem mem_filter_map_id {customers : List Customer} {cust : Customer}
    (hnd : (customers.map Customer.id).Nodup) (hcust : cust ∈ customers)
    (p : Customer → Bool) :
    cust.id ∈ (customers.filter p).map Customer.id ↔ p cust = true := by
  constructor
  · intro h
    obtain ⟨c2, hc2, hid⟩ := List.mem_map.1 h
    obtain ⟨hc2m, hp⟩ := List.mem_filter.1 hc2
    have heq : c2 = cust := List.inj_on_of_nodup_map hnd hc2m hcust hid
    exact heq ▸ hp
  · intro hp
    exact List.mem_map.2 ⟨cust, List.mem_filter.2 ⟨hcust, hp⟩, rfl⟩

/-- Ids of a filtered table are ids of the table. -/
theorem filter_map_id_subset {customers : List Customer} (p : Customer → Bool)
    {x : String} (hx : x ∈ (customers.filter p).map Customer.id) :
    x ∈ customers.map Customer.id := by
  obtain ⟨c2, hc2, hid⟩ := List.mem_map.1 hx
  exact List.mem_map.2 ⟨c2, (List.mem_filter.1 hc2).1, hid⟩

/-- Shape of a successful `AND` evaluation. -/
theorem eval_and_ok {conds : List Condition} {now : Int} {customers : List Customer}
    {ids : List String}
    (h : evaluateSegmentRules (.node (("AND")) conds) now customers = .ok ids) :
    ∃ ws, buildConditions now conds = .ok ws ∧
      ids = (customers.filter (fun c => whereMatches (.andC ws) c)).map Customer.id := by
  simp only [evaluateSegmentRules, buildWhereClause, if_pos rfl] at h
  cases hbc : buildConditions now conds with
  | error e => rw [hbc] at h; cases h
  | ok ws =>
    rw [hbc] at h
    simp only [Except.map] at h
    cases h
    exact ⟨ws, rfl, rfl⟩

/-- Shape of a successful `OR` evaluation. -/
theorem eval_or_ok {conds : List Condition} {now : Int} {customers : List Customer}
    {ids : List String}
    (h : evaluateSegmentRules (.node (("OR")) conds) now customers = .ok ids) :
    ∃ ws, buildConditions now conds = .ok ws ∧
      ids = (customers.filter (fun c => whereMatches (.orC ws) c)).map Customer.id := by
  simp only [evaluateSegmentRules, buildWhereClause, reduceIte] at h
  cases hbc : buildConditions now conds with
  | error e => rw [hbc] at h; cases h
  | ok ws =>
    rw [hbc] at h
    simp only [Except.map] at h
    cases h
    exact ⟨ws, rfl, rfl⟩

/-- Shape of a successful bare-condition evaluation. -/
theorem eval_leaf_ok {c0 : Condition} {now : Int} {customers : List Customer}
    {ids : List String}
    (h : evaluateSegmentRules (.leaf c0) now customers = .ok ids) :
    ∃ w, buildCondition c0 now = .ok w ∧
      ids = (customers.filter (fun c => condMatches w c)).map Customer.id := by
  simp only [evaluateSegmentRules, buildWhereClause] at h
  cases hb : buildCondition c0 now with
  | error e => rw [hb] at h; cases h
  | ok w =>
    rw [hb] at h
    simp only [Except.map] at h
    cases h
    exact ⟨w, rfl, rfl⟩

/-- Evaluation of a bare condition whose clause is already built. -/
theorem eval_leaf_of_build {c0 : Condition} {now : Int} {w : CondClause}
    (hb : buildCondition c0 now = .ok w) (customers : List Customer) :
    evaluateSegmentRules (.leaf c0) now customers =
      .ok ((customers.filter (fun c => condMatches w c)).map Customer.id) := by
  simp only [evaluateSegmentRules, buildWhereClause]
  rw [hb]
  rfl

/-! ## Claim C1 -/

/-- Claim C1: over a customer collection with distinct ids, `evaluateSegmentRules`
on `{type: AND, conditions}` returns exactly the intersection of the per-child
matched sets (an id of the collection is in the result iff it is in every
child's own matched set), on `{type: OR, conditions}` exactly their union, and
on a bare condition exactly the customers satisfying that single predicate;
each result contains only ids of the collection. -/
theorem evaluateSegmentRules_connectives
    (conds : List Condition) (c0 : Condition) (now : Int)
    (customers : List Customer) (cust : Customer)
    (andIds orIds oneIds : List String)
    (hnd : (customers.map Customer.id).Nodup)
    (hcust : cust ∈ customers)
    (hAnd : evaluateSegmentRules (.node (("AND")) conds) now customers = .ok andIds)
    (hOr : evaluateSegmentRules (.node (("OR")) conds) now customers = .ok orIds)
    (hOne : evaluateSegmentRules (.leaf c0) now customers = .ok oneIds) :
    ((cust.id ∈ andIds ↔ ∀ cd ∈ conds, ∃ ids,
        evaluateSegmentRules (.leaf cd) now customers = .ok ids ∧ cust.id ∈ ids)
    ∧ (cust.id ∈ orIds ↔ ∃ cd ∈ conds, ∃ ids,
        evaluateSegmentRules (.leaf cd) now customers = .ok ids ∧ cust.id ∈ ids)
    ∧ (cust.id ∈ oneIds ↔ ∃ w, buildCondition c0 now = .ok w ∧ condMatches w cust = true))
    ∧ (∀ x ∈ andIds, x ∈ customers.map Customer.id)
    ∧ (∀ x ∈ orIds, x ∈ customers.map Customer.id)
    ∧ (∀ x ∈ oneIds, x ∈ customers.map Customer.id) := by
  obtain ⟨wa, hwa, hae⟩ := eval_and_ok hAnd
  obtain ⟨wo, hwo, hoe⟩ := eval_or_ok hOr
  obtain ⟨w1, hw1, h1e⟩ := eval_leaf_ok hOne
  have hfa := buildConditions_forall2 hwa
  have hfo := buildConditions_forall2 hwo
  subst hae hoe h1e
  refine ⟨⟨?_, ?_, ?_⟩, fun x hx => filter_map_id_subset _ hx,
    fun x hx => filter_map_id_subset _ hx, fun x hx => filter_map_id_subset _ hx⟩
  · rw [mem_filter_map_id hnd hcust]
    simp only [whereMatches, List.all_eq_true]
    constructor
    · intro hall cd hcd
      obtain ⟨w, hw, hbw⟩ := forall2_mem_l hfa hcd
      refine ⟨_, eval_leaf_of_build hbw customers, ?_⟩
      rw [mem_filter_map_id hnd hcust]
      exact hall w hw
    · intro h w hw
      obtain ⟨cd, hcd, hbw⟩ := forall2_mem_r hfa hw
      obtain ⟨ids, hids, hmem⟩ := h cd hcd
      rw [eval_leaf_of_build hbw customers] at hids
      cases hids
      rw [mem_filter_map_id hnd hcust] at hmem
      exact hmem
  · rw [mem_filter_map_id hnd hcust]
    simp only [whereMatches, List.any_eq_true]
    constructor
    · intro hany
      obtain ⟨w, hw, hm⟩ := hany
      obtain ⟨cd, hcd, hbw⟩ := forall2_mem_r hfo hw
      refine ⟨cd, hcd, _, eval_leaf_of_build hbw customers, ?_⟩
      rw [mem_filter_map_id hnd hcust]
      exact hm
    · intro h
      obtain ⟨cd, hcd, ids, hids, hmem⟩ := h
      obtain ⟨w, hw, hbw⟩ := forall2_mem_l hfo hcd
      rw [eval_leaf_of_build hbw customers] at hids
      cases hids
      rw [mem_filter_map_id hnd hcust] at hmem
      exact ⟨w, hw, hmem⟩
  · rw [mem_filter_map_id hnd hcust]
    constructor
    · intro hm
      exact ⟨w1, hw1, hm⟩
    · intro h
      obtain ⟨w2, hw2, hm⟩ := h
      rw [hw1] at hw2
      cases hw2
      exact hm

/-- Witness for C1 at the fixture of spec section 8: the `AND` of
`totalSpend gt 500` and `visitCount gte 3` matches customer 1 via both
characterizations, and every hypothesis holds at this input. -/
theorem evaluateSegmentRules_connectives_witness :
    ((demoCust1.id ∈ [("c1"), ("c3")] ↔ ∀ cd ∈ [(⟨("totalSpend"), ("gt"), .num 500⟩ : Condition),
        ⟨("visitCount"), ("gte"), .num 3⟩], ∃ ids,
        evaluateSegmentRules (.leaf cd) 0 demoCustomers = .ok ids ∧ demoCust1.id ∈ ids)
    ∧ (demoCust1.id ∈ [("c1"), ("c3")] ↔ ∃ cd ∈ [(⟨("totalSpend"), ("gt"), .num 500⟩ : Condition),
        ⟨("visitCount"), ("gte"), .num 3⟩], ∃ ids,
        evaluateSegmentRules (.leaf cd) 0 demoCustomers = .ok ids ∧ demoCust1.id ∈ ids)
    ∧ (demoCust1.id ∈ [("c1"), ("c3")] ↔ ∃ w,
        buildCondition ⟨("totalSpend"), ("gt"), .num 500⟩ 0 = .ok w ∧ condMatches w demoCust1 = true))
    ∧ (∀ x ∈ [("c1"), ("c3")], x ∈ demoCustomers.map Customer.id)
    ∧ (∀ x ∈ [("c1"), ("c3")], x ∈ demoCustomers.map Customer.id)
    ∧ (∀ x ∈ [("c1"), ("c3")], x ∈ demoCustomers.map Customer.id) :=
  evaluateSegmentRules_connectives
    [⟨("totalSpend"), ("gt"), .num 500⟩, ⟨("visitCount"), ("gte"), .num 3⟩]
    ⟨("totalSpend"), ("gt"), .num 500⟩ 0 demoCustomers demoCust1
    [("c1"), ("c3")] [("c1"), ("c3")] [("c1"), ("c3")]
    (by decide) (by decide) (by rfl) (by rfl) (by rfl)

/-! ## Claim C3 -/

/-- Claim C3: a rule tree containing a condition with an unrecognized field
fails already at predicate construction with that condition's
`Unsupported field` error, and the whole evaluation returns one and the same
error for every customer collection — no customer is tested and no partial
match set is produced. -/
theorem unsupportedField_aborts (rules : Rules) (cd : Condition) (now : Int)
    (hin : match rules with | .node _ conds => cd ∈ conds | .leaf c0 => cd = c0)
    (hf : cd.field ∉ [("totalSpend"), ("visitCount"), ("lastVisit"), ("email")]) :
    buildCondition cd now = .error (("Unsupported field: ") ++ cd.field)
    ∧ ∃ e, ∀ customers, evaluateSegmentRules rules now customers = .error e := by
  simp only [List.mem_cons, List.not_mem_nil, or_false, not_or] at hf
  obtain ⟨h1, h2, h3, h4⟩ := hf
  have hb : buildCondition cd now = .error (("Unsupported field: ") ++ cd.field) := by
    simp only [buildCondition, if_neg h1, if_neg h2, if_neg h3, if_neg h4]
  refine ⟨hb, ?_⟩
  match rules, hin with
  | .leaf c0, hin =>
    subst hin
    exact ⟨_, fun customers => by
      simp only [evaluateSegmentRules, buildWhereClause]
      rw [hb]
      rfl⟩
  | .node ty conds, hin =>
    by_cases hty : ty = ("AND")
    · subst hty
      obtain ⟨e, he⟩ := buildConditions_error hin hb
      exact ⟨e, fun customers => by
        simp only [evaluateSegmentRules, buildWhereClause, if_pos rfl]
        rw [he]
        rfl⟩
    · by_cases hty2 : ty = ("OR")
      · subst hty2
        obtain ⟨e, he⟩ := buildConditions_error hin hb
        exact ⟨e, fun customers => by
          simp only [evaluateSegmentRules, buildWhereClause, reduceIte]
          rw [he]
          rfl⟩
      · exact ⟨("Unsupported field: undefined"), fun customers => by
          simp only [evaluateSegmentRules, buildWhereClause, if_neg hty, if_neg hty2]⟩

/-- Witness for C3: an `AND` tree whose second condition uses the unknown
field `loyaltyTier` builds to an `Unsupported field` error and makes the
whole evaluation fail identically on every collection. -/
theorem unsupportedField_aborts_witness :
    buildCondition ⟨("loyaltyTier"), ("eq"), .str ("gold")⟩ 0 =
      .error (("Unsupported field: ") ++ ("loyaltyTier"))
    ∧ ∃ e, ∀ customers, evaluateSegmentRules
        (.node (("AND")) [⟨("totalSpend"), ("gt"), .num 5⟩,
          ⟨("loyaltyTier"), ("eq"), .str ("gold")⟩]) 0 customers = .error e :=
  unsupportedField_aborts
    (.node (("AND")) [⟨("totalSpend"), ("gt"), .num 5⟩, ⟨("loyaltyTier"), ("eq"), .str ("gold")⟩])
    ⟨("loyaltyTier"), ("eq"), .str ("gold")⟩ 0 (by decide) (by decide)

/-! ## Claim C4 -/

/-- Claim C4 fails on the code: a numeric condition whose value is not
coercible to a number does not raise any error — `buildCondition` succeeds,
returning a `NaN` comparison (`numGt nan`), and evaluating the resulting
rule yields the empty match set rather than aborting. -/
theorem buildCondition_nonNumeric_counter :
    buildCondition ⟨("totalSpend"), ("gt"), .str ("abc")⟩ 0 =
      .ok ⟨("totalSpend"), DbFilter.numGt JsNum.nan⟩
    ∧ evaluateSegmentRules (.leaf ⟨("totalSpend"), ("gt"), .str ("abc")⟩) 0 demoCustomers =
        .ok [] :=
  ⟨rfl, rfl⟩

/-- Claim C4 as amended: for a recognized numeric field, a value that is not
coercible to a number (both `parseFloat` and `parseInt` give `NaN`; strings
like `Infinity` coerce to an infinity and are outside this case) is not
rejected — any recognized operator builds successfully into a comparison
against `NaN` that matches no customer; only an operator outside
`gt`/`gte`/`lt`/`lte`/`eq` fails, with the `Unsupported operator` error. -/
theorem numericCondition_amended (fieldName op : String) (v : Value) (now : Int)
    (hfield : fieldName = ("totalSpend") ∨ fieldName = ("visitCount"))
    (hv1 : jsParseFloat v = .nan) (hv2 : jsParseIntV v = none) :
    (op ∈ [("gt"), ("gte"), ("lt"), ("lte"), ("eq")] →
      ∃ flt, buildCondition ⟨fieldName, op, v⟩ now = .ok ⟨fieldName, flt⟩ ∧
        ∀ c : Customer, condMatches ⟨fieldName, flt⟩ c = false)
    ∧ (op ∉ [("gt"), ("gte"), ("lt"), ("lte"), ("eq")] →
      buildCondition ⟨fieldName, op, v⟩ now =
        .error (("Unsupported operator: ") ++ op)) := by
  constructor
  · intro hop
    simp only [List.mem_cons, List.not_mem_nil, or_false] at hop
    rcases hfield with hl | hl <;> subst hl <;>
      rcases hop with h | h | h | h | h <;> subst h
    · exact ⟨.numGt .nan, by simp [buildCondition, buildNumericCondition, hv1], fun c => rfl⟩
    · exact ⟨.numGte .nan, by simp [buildCondition, buildNumericCondition, hv1], fun c => rfl⟩
    · exact ⟨.numLt .nan, by simp [buildCondition, buildNumericCondition, hv1], fun c => rfl⟩
    · exact ⟨.numLte .nan, by simp [buildCondition, buildNumericCondition, hv1], fun c => rfl⟩
    · exact ⟨.numEq .nan, by simp [buildCondition, buildNumericCondition, hv1], fun c => rfl⟩
    · exact ⟨.numGt .nan, by simp [buildCondition, buildNumericCondition, jsNumOfIntOpt, hv2], fun c => rfl⟩
    · exact ⟨.numGte .nan, by simp [buildCondition, buildNumericCondition, jsNumOfIntOpt, hv2], fun c => rfl⟩
    · exact ⟨.numLt .nan, by simp [buildCondition, buildNumericCondition, jsNumOfIntOpt, hv2], fun c => rfl⟩
    · exact ⟨.numLte .nan, by simp [buildCondition, buildNumericCondition, jsNumOfIntOpt, hv2], fun c => rfl⟩
    · exact ⟨.numEq .nan, by simp [buildCondition, buildNumericCondition, jsNumOfIntOpt, hv2], fun c => rfl⟩
  · intro hop
    simp only [List.mem_cons, List.not_mem_nil, or_false, not_or] at hop
    obtain ⟨hn1, hn2, hn3, hn4, hn5⟩ := hop
    rcases hfield with hl | hl <;> subst hl <;>
      simp [buildCondition, buildNumericCondition,
        if_neg hn1, if_neg hn2, if_neg hn3, if_neg hn4, if_neg hn5]

/-- Witness for C4's amended statement at `totalSpend gt "abc"`. -/
theorem numericCondition_amended_witness :
    ((("gt") : String) ∈ [("gt"), ("gte"), ("lt"), ("lte"), ("eq")] →
      ∃ flt, buildCondition ⟨("totalSpend"), ("gt"), .str ("abc")⟩ 0 =
          .ok ⟨("totalSpend"), flt⟩ ∧
        ∀ c : Customer, condMatches ⟨("totalSpend"), flt⟩ c = false)
    ∧ ((("gt") : String) ∉ [("gt"), ("gte"), ("lt"), ("lte"), ("eq")] →
      buildCondition ⟨("totalSpend"), ("gt"), .str ("abc")⟩ 0 =
        .error (("Unsupported operator: ") ++ ("gt"))) :=
  numericCondition_amended ("totalSpend") ("gt") (.str ("abc")) 0 (Or.inl rfl) rfl rfl

/-! ## Claim C6 -/

/-- JS integer truncation is the identity on integer-valued numbers. -/
theorem ratTrunc_intCast (n : Int) : ratTrunc ((n : Rat)) = n := by
  unfold ratTrunc
  by_cases h : ((n : Rat)) < 0
  · rw [if_pos h]
    rw [show -((n : Rat)) = (((-n : Int)) : Rat) by push_cast; ring]
    rw [Rat.floor_def']
    simp
  · rw [if_neg h]
    rw [Rat.floor_def']
    simp

/-- Claim C6: boundary semantics of the built comparisons.  A field value
exactly equal to the boundary matches under `gte`/`lte` and under either
endpoint of `between`, and never matches under `gt`/`lt` (numeric) or
`before`/`after` (dates). -/
theorem comparison_boundaries (now : Int) (c : Customer)
    (s slo shi : String) (tlo thi : Int)
    (hsplit : jsSplit (',') s = [slo, shi])
    (hlo : jsDateOfStr slo = some tlo)
    (hhi : jsDateOfStr shi = some thi)
    (hle : tlo ≤ thi) :
    ((buildCondition ⟨("totalSpend"), ("gte"), .num c.totalSpend⟩ now).map
        (fun w => condMatches w c) = .ok true)
    ∧ ((buildCondition ⟨("totalSpend"), ("lte"), .num c.totalSpend⟩ now).map
        (fun w => condMatches w c) = .ok true)
    ∧ ((buildCondition ⟨("totalSpend"), ("gt"), .num c.totalSpend⟩ now).map
        (fun w => condMatches w c) = .ok false)
    ∧ ((buildCondition ⟨("totalSpend"), ("lt"), .num c.totalSpend⟩ now).map
        (fun w => condMatches w c) = .ok false)
    ∧ ((buildCondition ⟨("visitCount"), ("gte"), .num ((c.visitCount : Rat))⟩ now).map
        (fun w => condMatches w c) = .ok true)
    ∧ ((buildCondition ⟨("visitCount"), ("lte"), .num ((c.visitCount : Rat))⟩ now).map
        (fun w => condMatches w c) = .ok true)
    ∧ ((buildCondition ⟨("visitCount"), ("gt"), .num ((c.visitCount : Rat))⟩ now).map
        (fun w => condMatches w c) = .ok false)
    ∧ ((buildCondition ⟨("visitCount"), ("lt"), .num ((c.visitCount : Rat))⟩ now).map
        (fun w => condMatches w c) = .ok false)
    ∧ ((buildCondition ⟨("lastVisit"), ("before"), .num ((c.lastVisit : Rat))⟩ now).map
        (fun w => condMatches w c) = .ok false)
    ∧ ((buildCondition ⟨("lastVisit"), ("after"), .num ((c.lastVisit : Rat))⟩ now).map
        (fun w => condMatches w c) = .ok false)
    ∧ (c.lastVisit = tlo →
        (buildCondition ⟨("lastVisit"), ("between"), .str s⟩ now).map
          (fun w => condMatches w c) = .ok true)
    ∧ (c.lastVisit = thi →
        (buildCondition ⟨("lastVisit"), ("between"), .str s⟩ now).map
          (fun w => condMatches w c) = .ok true) := by
  refine ⟨?_, ?_, ?_, ?_, ?_, ?_, ?_, ?_, ?_, ?_, ?_, ?_⟩
  · simp [buildCondition, buildNumericCondition, jsParseFloat, condMatches,
      filterMatches, fieldNum, jsNumLt, jsNumLe, Except.map]
  · simp [buildCondition, buildNumericCondition, jsParseFloat, condMatches,
      filterMatches, fieldNum, jsNumLt, jsNumLe, Except.map]
  · simp [buildCondition, buildNumericCondition, jsParseFloat, condMatches,
      filterMatches, fieldNum, jsNumLt, jsNumLe, Except.map]
  · simp [buildCondition, buildNumericCondition, jsParseFloat, condMatches,
      filterMatches, fieldNum, jsNumLt, jsNumLe, Except.map]
  · simp [buildCondition, buildNumericCondition, jsParseIntV, jsNumOfIntOpt,
      ratTrunc_intCast, condMatches, filterMatches, fieldNum, jsNumLt, jsNumLe,
      Except.map]
  · simp [buildCondition, buildNumericCondition, jsParseIntV, jsNumOfIntOpt,
      ratTrunc_intCast, condMatches, filterMatches, fieldNum, jsNumLt, jsNumLe,
      Except.map]
  · simp [buildCondition, buildNumericCondition, jsParseIntV, jsNumOfIntOpt,
      ratTrunc_intCast, condMatches, filterMatches, fieldNum, jsNumLt, jsNumLe,
      Except.map]
  · simp [buildCondition, buildNumericCondition, jsParseIntV, jsNumOfIntOpt,
      ratTrunc_intCast, condMatches, filterMatches, fieldNum, jsNumLt, jsNumLe,
      Except.map]
  · simp [buildCondition, buildDateCondition, jsDate, ratTrunc_intCast,
      condMatches, filterMatches, fieldDate, Except.map]
  · simp [buildCondition, buildDateCondition, jsDate, ratTrunc_intCast,
      condMatches, filterMatches, fieldDate, Except.map]
  · intro hc
    simp [buildCondition, buildDateCondition, hsplit, hlo, hhi,
      condMatches, filterMatches, fieldDate, Except.map, hc, hle]
  · intro hc
    simp [buildCondition, buildDateCondition, hsplit, hlo, hhi,
      condMatches, filterMatches, fieldDate, Except.map, hc, hle]

/-- Witness for C6 at customer 1 (`totalSpend 1200`, `visitCount 3`,
`lastVisit 1000`) and the range string `1000,2500`, whose lower endpoint
equals the customer's `lastVisit`. -/
theorem comparison_boundaries_witness :
    ((buildCondition ⟨("totalSpend"), ("gte"), .num demoCust1.totalSpend⟩ 0).map
        (fun w => condMatches w demoCust1) = .ok true)
    ∧ ((buildCondition ⟨("totalSpend"), ("lte"), .num demoCust1.totalSpend⟩ 0).map
        (fun w => condMatches w demoCust1) = .ok true)
    ∧ ((buildCondition ⟨("totalSpend"), ("gt"), .num demoCust1.totalSpend⟩ 0).map
        (fun w => condMatches w demoCust1) = .ok false)
    ∧ ((buildCondition ⟨("totalSpend"), ("lt"), .num demoCust1.totalSpend⟩ 0).map
        (fun w => condMatches w demoCust1) = .ok false)
    ∧ ((buildCondition ⟨("visitCount"), ("gte"), .num ((demoCust1.visitCount : Rat))⟩ 0).map
        (fun w => condMatches w demoCust1) = .ok true)
    ∧ ((buildCondition ⟨("visitCount"), ("lte"), .num ((demoCust1.visitCount : Rat))⟩ 0).map
        (fun w => condMatches w demoCust1) = .ok true)
    ∧ ((buildCondition ⟨("visitCount"), ("gt"), .num ((demoCust1.visitCount : Rat))⟩ 0).map
        (fun w => condMatches w demoCust1) = .ok false)
    ∧ ((buildCondition ⟨("visitCount"), ("lt"), .num ((demoCust1.visitCount : Rat))⟩ 0).map
        (fun w => condMatches w demoCust1) = .ok false)
    ∧ ((buildCondition ⟨("lastVisit"), ("before"), .num ((demoCust1.lastVisit : Rat))⟩ 0).map
        (fun w => condMatches w demoCust1) = .ok false)
    ∧ ((buildCondition ⟨("lastVisit"), ("after"), .num ((demoCust1.lastVisit : Rat))⟩ 0).map
        (fun w => condMatches w demoCust1) = .ok false)
    ∧ (demoCust1.lastVisit = 1000 →
        (buildCondition ⟨("lastVisit"), ("between"), .str ("1000,2500")⟩ 0).map
          (fun w => condMatches w demoCust1) = .ok true)
    ∧ (demoCust1.lastVisit = 2500 →
        (buildCondition ⟨("lastVisit"), ("between"), .str ("1000,2500")⟩ 0).map
          (fun w => condMatches w demoCust1) = .ok true) :=
  comparison_boundaries 0 demoCust1 ("1000,2500") ("1000") ("2500") 1000 2500
    (by decide) (by decide) (by decide) (by decide)

/-! ## Claim C7 -/

/-- Claim C7: `preview` never changes the store (no segment and no customer
record is written), and whenever it answers, the count is the number of
matching customers and the sample is their 5-element prefix, so its length
never exceeds 5. -/
theorem previewSegment_frame (rules : Rules) (now : Int) (db : DB) :
    (previewSegment rules now db).2 = db
    ∧ (∀ n sample, (previewSegment rules now db).1 = .ok (n, sample) →
        ∃ ids, evaluateSegmentRules rules now db.customers = .ok ids ∧
          n = ids.length ∧ sample = ids.take 5 ∧ sample.length ≤ 5) := by
  cases heval : evaluateSegmentRules rules now db.customers with
  | error e =>
    refine ⟨?_, ?_⟩
    · simp only [previewSegment]
      rw [heval]
    · intro n sample h
      simp only [previewSegment] at h
      rw [heval] at h
      cases h
  | ok ids =>
    refine ⟨?_, ?_⟩
    · simp only [previewSegment]
      rw [heval]
    · intro n sample h
      simp only [previewSegment] at h
      rw [heval] at h
      cases h
      refine ⟨ids, rfl, rfl, rfl, ?_⟩
      rw [List.length_take]
      exact min_le_left 5 ids.length

/-- Witness for C7 on a store of six matching customers: the store is
untouched and the returned sample has exactly five entries although six
customers match. -/
theorem previewSegment_frame_witness :
    (previewSegment (.leaf ⟨("totalSpend"), ("gte"), .num 0⟩) 0 demoDB6).2 = demoDB6
    ∧ (∃ ids, evaluateSegmentRules (.leaf ⟨("totalSpend"), ("gte"), .num 0⟩) 0
          demoDB6.customers = .ok ids ∧
        (6 : Nat) = ids.length ∧
        ([("d1"), ("d2"), ("d3"), ("d4"), ("d5")] : List String) = ids.take 5 ∧
        ([("d1"), ("d2"), ("d3"), ("d4"), ("d5")] : List String).length ≤ 5) :=
  ⟨(previewSegment_frame (.leaf ⟨("totalSpend"), ("gte"), .num 0⟩) 0 demoDB6).1,
    (previewSegment_frame (.leaf ⟨("totalSpend"), ("gte"), .num 0⟩) 0 demoDB6).2
      6 [("d1"), ("d2"), ("d3"), ("d4"), ("d5")] rfl⟩

/-! ## Claim C5 -/

/-- Claim C5 fails on the code: `create` with a missing `description` and a
zero-condition rule (`{type: AND, conditions: []}`) does not fail with a
validation error — it persists the segment and reports every customer as
matched; and `create` with a rule that fails evaluation still persists the
segment record before failing. -/
theorem createSegment_validation_counter :
    (createSegment ("VIPs") none (.node (("AND")) []) ("seg1") 0 demoDB).1 =
      .created ⟨("seg1"), ("VIPs"), none, .node (("AND")) []⟩ 3
    ∧ (createSegment ("VIPs") none (.node (("AND")) []) ("seg1") 0 demoDB).2.segments =
        [⟨("seg1"), ("VIPs"), none, .node (("AND")) []⟩]
    ∧ (createSegment ("VIPs") none (.leaf ⟨("loyalty"), ("gt"), .num 1⟩) ("seg2") 0 demoDB).1 =
        .serverError
    ∧ (createSegment ("VIPs") none (.leaf ⟨("loyalty"), ("gt"), .num 1⟩) ("seg2") 0 demoDB).2.segments =
        [⟨("seg2"), ("VIPs"), none, .leaf ⟨("loyalty"), ("gt"), .num 1⟩⟩] :=
  ⟨rfl, rfl, rfl, rfl⟩

/-- Claim C5 as amended: backend `create` rejects (400, store untouched) only
a blank `name`; `description` is optional and a zero-condition rule is not
rejected.  The segment row is persisted before evaluation: a failing rule
leaves the row persisted and answers with a server error, while on success
the response's `customerCount` is the length of the evaluation result and
exactly its ids are linked to the new segment. -/
theorem createSegment_amended (name : String) (description : Option String)
    (rules : Rules) (newId : String) (now : Int) (db : DB) :
    (trimStr name = ("") →
      createSegment name description rules newId now db = (.badRequest, db))
    ∧ (trimStr name ≠ ("") → ∀ e, evaluateSegmentRules rules now db.customers = .error e →
        createSegment name description rules newId now db =
          (.serverError,
            { db with segments := db.segments ++ [⟨newId, name, description, rules⟩] }))
    ∧ (trimStr name ≠ ("") → ∀ ids, evaluateSegmentRules rules now db.customers = .ok ids →
        createSegment name description rules newId now db =
          (.created ⟨newId, name, description, rules⟩ ids.length,
            { db with segments := db.segments ++ [⟨newId, name, description, rules⟩],
                      links := db.links ++ ids.map (fun cid => (cid, newId)) })) := by
  refine ⟨?_, ?_, ?_⟩
  · intro h
    simp only [createSegment, if_pos h]
  · intro h e heval
    simp only [createSegment, if_neg h]
    rw [heval]
  · intro h ids heval
    simp only [createSegment, if_neg h]
    rw [heval]

/-- Witness for C5's amended statement: creating `N` (no description) over the
three-customer store with the empty `AND` rule succeeds with count 3 and
links every customer. -/
theorem createSegment_amended_witness :
    createSegment ("N") none (.node (("AND")) []) ("s9") 0 demoDB =
      (.created ⟨("s9"), ("N"), none, .node (("AND")) []⟩
        ([("c1"), ("c2"), ("c3")] : List String).length,
        { demoDB with
            segments := demoDB.segments ++ [⟨("s9"), ("N"), none, .node (("AND")) []⟩],
            links := demoDB.links ++
              ([("c1"), ("c2"), ("c3")] : List String).map (fun cid => (cid, ("s9"))) }) :=
  (createSegment_amended ("N") none (.node (("AND")) []) ("s9") 0 demoDB).2.2
    (by decide) [("c1"), ("c2"), ("c3")] rfl

/-! ## Claim C8 -/

/-- Claim C8 fails on the code: persistence is not one atomic write.  When
evaluation of the rule throws, the handler has already created the segment
row, so a partially-written state remains: the segment exists with no
membership rows. -/
theorem create_not_atomic_counter :
    (createSegment ("S")  none (.leaf ⟨("plan"), ("eq"), .str ("x")⟩) ("seg9") 0 demoDB).1 =
      .serverError
    ∧ (⟨("seg9"), ("S"), none, .leaf ⟨("plan"), ("eq"), .str ("x")⟩⟩ : BSegment) ∈
        (createSegment ("S") none (.leaf ⟨("plan"), ("eq"), .str ("x")⟩) ("seg9") 0 demoDB).2.segments
    ∧ (createSegment ("S") none (.leaf ⟨("plan"), ("eq"), .str ("x")⟩) ("seg9") 0 demoDB).2.links =
        demoDB.links :=
  ⟨rfl, by decide, rfl⟩

/-- Claim C8 as amended: `create` writes in two phases — the segment row
first, membership afterwards.  Whenever evaluation fails after the row was
created, the final store keeps the segment row while the membership table is
untouched, so a segment without its membership is an observable outcome. -/
theorem create_two_phase_amended (name : String) (description : Option String)
    (rules : Rules) (newId : String) (now : Int) (db : DB)
    (hname : trimStr name ≠ (""))
    (he : ∃ e, evaluateSegmentRules rules now db.customers = .error e) :
    ((createSegment name description rules newId now db).1 = .serverError)
    ∧ (⟨newId, name, description, rules⟩ : BSegment) ∈
        (createSegment name description rules newId now db).2.segments
    ∧ (createSegment name description rules newId now db).2.links = db.links := by
  obtain ⟨e, heval⟩ := he
  have heq : createSegment name description rules newId now db =
      (.serverError,
        { db with segments := db.segments ++ [⟨newId, name, description, rules⟩] }) := by
    simp only [createSegment, if_neg hname]
    rw [heval]
  rw [heq]
  refine ⟨rfl, ?_, rfl⟩
  exact List.mem_append_right _ (List.mem_singleton.2 rfl)

/-- Witness for C8's amended statement at a rule with an unknown field. -/
theorem create_two_phase_amended_witness :
    ((createSegment ("T") none (.leaf ⟨("tier"), ("eq"), .str ("x")⟩) ("sgA") 0 demoDB).1 =
      .serverError)
    ∧ (⟨("sgA"), ("T"), none, .leaf ⟨("tier"), ("eq"), .str ("x")⟩⟩ : BSegment) ∈
        (createSegment ("T") none (.leaf ⟨("tier"), ("eq"), .str ("x")⟩) ("sgA") 0 demoDB).2.segments
    ∧ (createSegment ("T") none (.leaf ⟨("tier"), ("eq"), .str ("x")⟩) ("sgA") 0 demoDB).2.links =
        demoDB.links :=
  create_two_phase_amended ("T") none (.leaf ⟨("tier"), ("eq"), .str ("x")⟩) ("sgA") 0 demoDB
    (by decide) ⟨("Unsupported field: tier"), rfl⟩

/-! ## Claim C2 -/

/-- Claim C2's failing input, evaluated on the code: the purchase-triggered
recomputation sets the segment's `customerCount` to 1 using the hardcoded
rule `totalPurchases > 1`, although the segment's own stored rule
(`totalPurchases > 1000`) matches no customer either before or after the
purchase, and `matchedCustomerIds` is left at its old value instead of being
replaced by the re-evaluation result. -/
theorem updateSegmentCustomerCount_foreign_rule :
    (handleMakePurchase ("1") [demoFC] [demoFSeg]).2 =
      [⟨("s1"), ("Seg"), ("d"), 1, [("totalPurchases > 1000")], []⟩]
    ∧ getMatchedCustomers demoFSeg.rules [demoFC] = []
    ∧ getMatchedCustomers demoFSeg.rules (handleMakePurchase ("1") [demoFC] [demoFSeg]).1 = []
    ∧ (1 : Nat) ≠ (getMatchedCustomers demoFSeg.rules
        (handleMakePurchase ("1") [demoFC] [demoFSeg]).1).length :=
  ⟨rfl, rfl, rfl, by decide⟩

/-! ## Claim C9 -/

/-- Claim C9 fails on the code: after the purchase-triggered recomputation,
the stored `customerCount` is 1 while `matchedCustomerIds` still has length
0 — the count and the membership set disagree. -/
theorem count_invariant_counter :
    (updateSegmentCustomerCount [demoFC] [demoFSeg]).map (fun s => s.customerCount) = [1]
    ∧ (updateSegmentCustomerCount [demoFC] [demoFSeg]).map
        (fun s => s.matchedCustomerIds.length) = [0]
    ∧ (1 : Nat) ≠ 0 :=
  ⟨rfl, rfl, by decide⟩

/-- Claim C9 as amended: segment create/edit does establish
`customerCount = |matchedCustomerIds|` for the segment it writes, but the
purchase-triggered recomputation rewrites only `customerCount` of every
stored segment — using the hardcoded `totalPurchases > 1` filter — and
leaves every `matchedCustomerIds` unchanged, so the invariant is not
maintained across that operation. -/
theorem count_invariant_amended (name description : String) (rules : List String)
    (editingId : Option String) (newId : String) (customers : List FCustomer)
    (segments : List FSegment) (out : List FSegment)
    (hfresh : ∀ s ∈ segments, s.id ≠ newId)
    (h : handleCreateSegment name description rules editingId newId customers segments =
      some out) :
    (∀ s ∈ out, s.id = editingId.getD newId →
      s.customerCount = s.matchedCustomerIds.length)
    ∧ (updateSegmentCustomerCount customers segments).map (fun s => s.matchedCustomerIds) =
        segments.map (fun s => s.matchedCustomerIds)
    ∧ (∀ s2 ∈ updateSegmentCustomerCount customers segments,
        s2.customerCount =
          (customers.filter (fun c2 => decide (1 < c2.totalPurchases))).length) := by
  refine ⟨?_, ?_, ?_⟩
  · simp only [handleCreateSegment] at h
    by_cases hcond : (name = ("") || description = ("") || rules.length = 0) = true
    · rw [if_pos hcond] at h
      cases h
    · rw [if_neg hcond] at h
      cases h
      intro s hs hid
      cases heid : editingId with
      | some eid =>
        rw [heid] at hs
        obtain ⟨t, ht, hts⟩ := List.mem_map.1 hs
        by_cases h2 : t.id = eid
        · rw [if_pos h2] at hts
          subst hts
          simp only [List.length_map]
        · rw [if_neg h2] at hts
          subst hts
          rw [heid] at hid
          exact absurd hid h2
      | none =>
        rw [heid] at hs
        rcases List.mem_append.1 hs with h3 | h3
        · rw [heid] at hid
          exact absurd hid (hfresh s h3)
        · cases List.mem_singleton.1 h3
          simp only [List.length_map]
  · simp only [updateSegmentCustomerCount, List.map_map]
    rfl
  · intro s2 hs2
    obtain ⟨t, ht, hts⟩ := List.mem_map.1 hs2
    subst hts
    rfl

/-- Witness for C9's amended statement: creating a segment over the one
fixture customer with rule `totalPurchases > 1` both stores a consistent
count and exhibits the hardcoded recount on an existing segment store. -/
theorem count_invariant_amended_witness :
    (∀ s ∈ [(⟨("id9"), ("n"), ("d"), 1, [("totalPurchases > 1")], [("1")]⟩ : FSegment)],
      s.id = (Option.none.getD (("id9")) : String) →
      s.customerCount = s.matchedCustomerIds.length)
    ∧ (updateSegmentCustomerCount [demoFC] []).map (fun s => s.matchedCustomerIds) =
        ([] : List FSegment).map (fun s => s.matchedCustomerIds)
    ∧ (∀ s2 ∈ updateSegmentCustomerCount [demoFC] [],
        s2.customerCount =
          (([demoFC] : List FCustomer).filter
            (fun c2 => decide (1 < c2.totalPurchases))).length) :=
  count_invariant_amended ("n") ("d") [("totalPurchases > 1")] none ("id9")
    [demoFC] [] [⟨("id9"), ("n"), ("d"), 1, [("totalPurchases > 1")], [("1")]⟩]
    (by intro s hs; cases hs) rfl

/-! ## Claim C10 -/

/-- JS `undefined > b` is false for every operand produced here. -/
theorem jsGt_undef (b : JSVal) : jsGt .undefined b = false := by
  cases b <;> rfl

/-- JS `undefined < b` is false for every operand produced here. -/
theorem jsLt_undef (b : JSVal) : jsLt .undefined b = false := by
  cases b <;> rfl

/-- JS `undefined == parsedValue` is false: the coerced literal is a string
or a number, never `undefined`. -/
theorem jsLooseEq_undef_parsed (v : String) : jsLooseEq .undefined (parsedValueOf v) = false := by
  unfold parsedValueOf
  cases h : jsNumberStr v <;> rfl

/-- Claim C10 fails on the code: the rule `foo != 5`, whose field is not a
key of the customer record, evaluates to `true` for the fixture customer
(JS `undefined != 5`), so `getMatchedCustomers` keeps every customer instead
of dropping them all. -/
theorem unknownField_neq_counter :
    customerField demoFC (("foo")) = JSVal.undefined
    ∧ evalRule demoFC (("foo != 5")) = true
    ∧ getMatchedCustomers [(("foo != 5"))] [demoFC] = [demoFC] :=
  ⟨rfl, rfl, rfl⟩

/-- Claim C10 as amended: `getMatchedCustomers` is total and only filters
(the result is a sublist of the input, and every rule evaluates to a plain
boolean).  Every condition whose operator is not one of `>`, `<`, `=`, `==`,
`!=` evaluates to `false`, whatever its field; a condition whose field is not
a customer key also evaluates to `false` under `>`, `<`, `=`, `==`; but under
`!=` an unknown field makes the condition `true` for every customer, so such
a rule matches all customers rather than none. -/
theorem getMatchedCustomers_amended (customers : List FCustomer) (c : FCustomer)
    (rules : List String) (rule : String) (f op v : String)
    (hsplit : jsSplit (' ') rule = [f, op, v]) :
    (getMatchedCustomers rules customers).Sublist customers
    ∧ (op ∉ [((">")), (("<")), (("=")), (("==")), (("!="))] → evalRule c rule = false)
    ∧ (customerField c f = JSVal.undefined →
        (op = ((">")) ∨ op = (("<")) ∨ op = (("=")) ∨ op = (("=="))) →
        evalRule c rule = false)
    ∧ (customerField c f = JSVal.undefined →
        op = (("!=")) → evalRule c rule = true) := by
  have hev : evalRule c rule =
      (if op = ((">")) then jsGt (customerField c f) (parsedValueOf v)
       else if op = (("<")) then jsLt (customerField c f) (parsedValueOf v)
       else if op = (("=")) then jsLooseEq (customerField c f) (parsedValueOf v)
       else if op = (("==")) then jsLooseEq (customerField c f) (parsedValueOf v)
       else if op = (("!=")) then !jsLooseEq (customerField c f) (parsedValueOf v)
       else false) := by
    unfold evalRule
    rw [hsplit]
    simp only [List.getElem?_cons_zero, List.getElem?_cons_succ]
  refine ⟨List.filter_sublist customers, ?_, ?_, ?_⟩
  · intro hop
    simp only [List.mem_cons, List.not_mem_nil, or_false, not_or] at hop
    obtain ⟨hn1, hn2, hn3, hn4, hn5⟩ := hop
    rw [hev, if_neg hn1, if_neg hn2, if_neg hn3, if_neg hn4, if_neg hn5]
  · intro hf hop
    rw [hf] at hev
    rcases hop with h | h | h | h <;> subst h <;>
      simp [hev, jsGt_undef, jsLt_undef, jsLooseEq_undef_parsed]
  · intro hf hop
    rw [hf] at hev
    subst hop
    simp [hev, jsLooseEq_undef_parsed]

/-- Witness for C10's amended statement at the rule `foo > 5` on the fixture
customer. -/
theorem getMatchedCustomers_amended_witness :
    (getMatchedCustomers [(("foo > 5"))] [demoFC]).Sublist [demoFC]
    ∧ (((">") : String) ∉ [((">")), (("<")), (("=")), (("==")), (("!="))] →
        evalRule demoFC (("foo > 5")) = false)
    ∧ (customerField demoFC (("foo")) = JSVal.undefined →
        ((((">") : String) = ((">")) ∨ ((">") : String) = (("<")) ∨
          ((">") : String) = (("=")) ∨ ((">") : String) = (("=="))) →
        evalRule demoFC (("foo > 5")) = false))
    ∧ (customerField demoFC (("foo")) = JSVal.undefined →
        ((">") : String) = (("!=")) → evalRule demoFC (("foo > 5")) = true) :=
  getMatchedCustomers_amended [demoFC] demoFC [(("foo > 5"))] (("foo > 5"))
    (("foo")) ((">")) (("5")) (by decide)
